import Mathlib

/-!
Shallow embedding of the ORM layer of this repository (the Database and
Table classes of pyFramework.py and the account layer of usermgr.py),
together with theorems settling the specification claims about it.

Modelling conventions:
  - Python dictionaries appear as insertion-ordered association lists;
    rows fetched with the default how=1 are association lists from column
    name to cell value.
  - The MySQL driver is an external collaborator.  Where an operation runs
    an arbitrary caller statement (sql_query, query) the server answer is
    a `backend` parameter: `none` for a statement without a result set,
    `some rows` otherwise.  Where an operation runs its own fixed DDL and
    introspection statements, the server is modelled as an ideal MySQL
    acting on an explicit schema value (CREATE/DROP/ALTER mutate it,
    SHOW TABLES and DESCRIBE read it).
  - A raised Python exception is an `Except.error` carrying the message.
  - Filesystem side effects (the generated class files in `tables/`) are
    outside the modelled state.
-/

set_option linter.unusedVariables false

namespace RandomPy

/-- One cell value as handed over by the MySQLdb driver: SQL NULL, text,
number, or a bytes object carrying the body of its Python repr (what
`str(v)[2:-1]` yields). -/
inductive Cell where
  | null : Cell
  | str (s : String) : Cell
  | int (n : Int) : Cell
  | bytes (body : String) : Cell
deriving DecidableEq, Repr

/-- A fetched row in dictionary form (default `how=1`): insertion-ordered
column-name/value pairs. -/
abbrev Row := List (String × Cell)

/-- Left-to-right traversal of a Python comprehension that can raise:
the first failing element propagates its exception. -/
def exceptMapM {α β : Type} (f : α → Except String β) : List α → Except String (List β)
  | [] => .ok []
  | a :: l =>
    match f a with
    | .error e => .error e
    | .ok b =>
      match exceptMapM f l with
      | .error e => .error e
      | .ok bs => .ok (b :: bs)

/-- ASCII lowercasing of one character, the part of Python str.lower
exercised by the SQL keywords and identifiers handled here. -/
def lowerChar (c : Char) : Char :=
  if 'A' ≤ c ∧ c ≤ 'Z' then Char.ofNat (c.toNat + 32) else c

/-- ASCII uppercasing of one character, as for lowerChar. -/
def upperChar (c : Char) : Char :=
  if 'a' ≤ c ∧ c ≤ 'z' then Char.ofNat (c.toNat - 32) else c

/-- Python str.lower on the ASCII strings handled here. -/
def pyLower (s : String) : String := ⟨s.data.map lowerChar⟩

/-- Python str.upper on the ASCII strings handled here. -/
def pyUpper (s : String) : String := ⟨s.data.map upperChar⟩

def listPrefix : List Char → List Char → Bool
  | [], _ => true
  | _ :: _, [] => false
  | p :: ps, c :: cs => p == c && listPrefix ps cs

def listInfix (pat : List Char) : List Char → Bool
  | [] => listPrefix pat []
  | c :: cs => listPrefix pat (c :: cs) || listInfix pat cs

/-- Python substring test `pat in s`. -/
def strContains (s pat : String) : Bool := listInfix pat.data s.data

/-- Python character-membership test `c in s`. -/
def strHasChar (s : String) (c : Char) : Bool := s.data.contains c

/-- Python slicing `s[n:]` (by code points). -/
def pyDrop (s : String) (n : Nat) : String := ⟨s.data.drop n⟩

/-- Python sep.join rendering. -/
def joinSep (sep : String) : List String → String
  | [] => ""
  | [x] => x
  | x :: xs => x ++ sep ++ joinSep sep xs

/-- Splitting a character list at every occurrence of one character. -/
def splitChar (c : Char) : List Char → List (List Char)
  | [] => [[]]
  | x :: xs =>
    let r := splitChar c xs
    if x == c then [] :: r
    else
      match r with
      | h :: t => (x :: h) :: t
      | [] => [[x]]

/-- Value of one hexadecimal digit, as `int(_, 16)` reads it. -/
def hexDigitVal (c : Char) : Nat :=
  if '0' ≤ c ∧ c ≤ '9' then c.toNat - 48
  else if 'a' ≤ c ∧ c ≤ 'f' then c.toNat - 87
  else if 'A' ≤ c ∧ c ≤ 'F' then c.toNat - 55
  else 0

def isHexDigit (c : Char) : Bool :=
  if ('0' ≤ c ∧ c ≤ '9') ∨ ('a' ≤ c ∧ c ≤ 'f') ∨ ('A' ≤ c ∧ c ≤ 'F') then true else false

/-- The ASCII whitespace characters int() strips from both ends.  A bytes
repr consists of printable ASCII, so the literal space is the reachable
case. -/
def isPySpace (c : Char) : Bool :=
  c == ' ' || c == '\t' || c == '\n' || c == '\r' || c == '\x0b' || c == '\x0c'

/-- Digit scan of CPython int(s, 16) after the sign and optional 0x
prefix: hexadecimal digits with single underscores allowed only after a
digit (or directly after the prefix) and only when followed by a digit;
at least one digit is required.  sawDigit records whether a digit has
been read; lastUS records that the previous position was an underscore
(it starts true when an underscore is not yet permitted). -/
def hexCore : List Char → Bool → Bool → Int → Option Int
  | [], sawDigit, lastUS, acc => if sawDigit && !lastUS then some acc else none
  | c :: cs, sawDigit, lastUS, acc =>
      if isHexDigit c then hexCore cs true false (acc * 16 + (hexDigitVal c : Int))
      else if c == '_' then
        if lastUS then none else hexCore cs sawDigit true acc
      else none

/-- Optional 0x/0X prefix, then the digit scan. -/
def hexAfterSign : List Char → Option Int
  | '0' :: c :: rest =>
      if c == 'x' || c == 'X' then hexCore rest false false 0
      else hexCore ('0' :: c :: rest) false true 0
  | cs => hexCore cs false true 0

/-- CPython int(s, 16) on the ASCII strings that occur as bytes-repr
slices: optional surrounding whitespace, optional sign, optional 0x
prefix, then hexadecimal digits with single underscores between them;
every other string raises ValueError (None here).  int() additionally
accepts non-ASCII unicode decimal digits, which a bytes repr cannot
contain and which are not modelled. -/
def pyIntHex (s : String) : Option Int :=
  let cs := ((s.data.dropWhile isPySpace).reverse.dropWhile isPySpace).reverse
  match cs with
  | '+' :: rest => hexAfterSign rest
  | '-' :: rest => (hexAfterSign rest).map (fun n => -n)
  | rest => hexAfterSign rest

/-- Cell post-processing of Database.sql_query (pyFramework.py lines
414-423): a bytes value whose repr contains a hex-escape marker is read
as `int(str(v)[4:-1], 16)` — which raises ValueError whenever that slice
is not a valid hexadecimal literal, as for any multi-byte or mixed
printable/escape binary value — any other bytes value becomes its text
(`str(v)[2:-1]`), and non-bytes values pass through.  `str(v)` of a
bytes value is its body wrapped in `b` and quotes. -/
def convertCell (v : Cell) : Except String Cell :=
  match v with
  | .bytes body =>
      if strContains ("b\x27" ++ body ++ "\x27") "\\x" then
        match pyIntHex (pyDrop body 2) with
        | some n => .ok (.int n)
        | none => .error "ValueError: invalid literal for int() with base 16"
      else .ok (.str body)
  | v => .ok v

/-- convertCell applied over one row, as the list comprehension of
sql_query does for dictionary rows: the first failing cell raises. -/
def convRow (r : Row) : Except String Row :=
  exceptMapM (fun kv => (convertCell kv.2).map fun c => (kv.1, c)) r

/-- The dynamically typed value Database.sql_query returns: Python None,
a bare scalar, a bare row dictionary, or a list of row dictionaries. -/
inductive SqlResult where
  | null : SqlResult
  | scalar (v : Cell) : SqlResult
  | row (r : Row) : SqlResult
  | rows (rs : List Row) : SqlResult
deriving DecidableEq, Repr

/-- Result materialisation of Database.sql_query (pyFramework.py lines
384-433): `store_result()` returning None is passed through; otherwise
the fetched rows are converted cell-wise — a conversion failure raises
out of sql_query — a single row is unwrapped to a bare dictionary, and a
single one-entry row is unwrapped further to the bare value.  An empty
fetch stays an empty list. -/
def collapseResult (stored : Option (List Row)) : Except String SqlResult :=
  match stored with
  | none => .ok .null
  | some fetched =>
    match exceptMapM convRow fetched with
    | .error e => .error e
    | .ok ret =>
      match ret with
      | [r] =>
        match r with
        | [kv] => .ok (.scalar kv.2)
        | _ => .ok (.row r)
      | _ => .ok (.rows ret)

/-- Python slicing `sql[:-1]`, used by query/sql_query to chop a trailing
comma or terminator. -/
def pyChop (s : String) : String := ⟨s.data.dropLast⟩

/-- Comma-separated rendering, used to state the spec-side statement
templates that the assembled SQL is compared against. -/
def commaSep : List String → String
  | [] => ""
  | [x] => x
  | x :: xs => x ++ "," ++ commaSep xs

/-- Column metadata held by the modelled MySQL server: name and type
definition. -/
structure Col where
  field : String
  ctype : String
deriving DecidableEq, Repr

/-- The live server schema: the tables present, in creation order, each
with its columns. -/
abbrev Schema := List (String × List Col)

/-- The modelled server's answer to `DESCRIBE t;`: one row per column
carrying the Field and Type attributes. -/
def describeRows (cols : List Col) : List Row :=
  cols.map fun c => [("Field", Cell.str c.field), ("Type", Cell.str c.ctype)]

/-- The modelled server's answer to `SHOW TABLES;`: one one-column row
per table. -/
def showTablesRows (srv : Schema) : List Row :=
  srv.map fun p => [("Tables_in_db", Cell.str p.1)]

def lookupTable (srv : Schema) (name : String) : Option (List Col) :=
  (srv.find? (fun p => p.1 == name)).map (·.2)

/-- pyFramework.Table: the table (or join) name together with the column
description exactly as the sql_query DESCRIBE call returned it — which,
because of result collapsing, need not be a list. -/
structure TableObj where
  name : String
  cols : SqlResult
deriving DecidableEq, Repr

/-- The mutable fields of a pyFramework.Database object: the stored
credentials, whether the driver connection is open, and the registry
`_tables` (None before the first discovery and after close). -/
structure PyDB where
  location : String
  user     : String
  password : String
  database : String
  db_open  : Bool
  tables   : Option (List TableObj)
deriving DecidableEq, Repr

/-- Database.__init__ (pyFramework.py lines 248-254). -/
def Database.init_ (loc user passwd db : String) : PyDB :=
  ⟨loc, user, passwd, db, false, none⟩

/-- Database.table_names property (lines 271-276): names of the registry
entries, or the empty list when the registry is falsy. -/
def table_names (db : PyDB) : List String :=
  match db.tables with
  | some ts => ts.map (·.name)
  | none => []

/-- Python dictionary lookup on a row. -/
def pyLookup (r : Row) (k : String) : Option Cell :=
  (r.find? (fun kv => kv.1 == k)).map (·.2)

/-- Table.col_names property (lines 118-123): the comprehension
[i[Field] for i in self._cols] under Python dynamic typing.  When _cols
is not a list of dictionaries (a collapsed bare dictionary, bare value or
None) the comprehension raises. -/
def TableObj.col_names (t : TableObj) : Except String (List Cell) :=
  match t.cols with
  | .rows rs => exceptMapM (fun r =>
      match pyLookup r "Field" with
      | some v => Except.ok v
      | none => Except.error "KeyError: Field") rs
  | .row _ => .error "TypeError: string indices must be integers"
  | .scalar _ => .error "TypeError: string indices must be integers"
  | .null => .error "TypeError: NoneType object is not iterable"

instance {ε α : Type} [DecidableEq ε] [DecidableEq α] : DecidableEq (Except ε α) := fun x y => by
  cases x <;> cases y
  case ok.ok a b => exact if h : a = b then isTrue (by simp [h]) else isFalse (by simp [h])
  case error.error a b => exact if h : a = b then isTrue (by simp [h]) else isFalse (by simp [h])
  case ok.error => exact isFalse (by simp)
  case error.ok => exact isFalse (by simp)

/-- Outcome of one Database operation: the Python return value or the
raised exception, the Database object afterwards, the server schema
afterwards, the SQL statements passed to the driver, and the
driver-handle calls made. -/
structure OpOut (α : Type) where
  ret    : Except String α
  db     : PyDB
  srv    : Schema
  sent   : List String
  driver : List String
deriving DecidableEq, Repr

/-- Database.sql_query (lines 347-433).  The str/int argument type checks
of the source are enforced by the Lean types; maxrows and how are left at
their defaults (fetch all rows, dictionary rows).  With limit > 0 the
statement is rewritten to carry a LIMIT clause before the terminator. -/
def Database.sql_query (db : PyDB) (srv : Schema)
    (backend : String → Option (List Row)) (q : String)
    (limit offset : Int) : OpOut SqlResult :=
  if db.db_open = false then
    ⟨.error "You must initiate the connection.", db, srv, [], []⟩
  else
    let q1 :=
      if 0 < limit then
        pyChop q ++ " LIMIT " ++ (if 0 < offset then toString offset ++ ", " else "")
          ++ toString limit ++ ";"
      else q
    ⟨collapseResult (backend q1), db, srv, [q1], []⟩

/-- An element of a Python list passed as the fields argument: the
validation of Database.query only distinguishes strings from everything
else. -/
inductive PyItem where
  | istr (s : String) : PyItem
  | iint (n : Int) : PyItem
  | inone : PyItem
deriving DecidableEq, Repr

def PyItem.isStr : PyItem → Bool
  | .istr _ => true
  | _ => false

def PyItem.asStr : PyItem → String
  | .istr s => s
  | _ => ""

/-- Dynamically typed Python argument values for the fields and extra
parameters of Database.query.  Dictionary values are strings, the only
type escape_string accepts without raising. -/
inductive PyVal where
  | pnone : PyVal
  | pstr (s : String) : PyVal
  | pint (n : Int) : PyVal
  | plist (l : List PyItem) : PyVal
  | pdict (d : List (String × String)) : PyVal
deriving DecidableEq, Repr

def validMethods : List String := ["distinct", "select", "insert", "delete", "update", "count"]

/-- Fields-shape validation of Database.query (lines 458-468): nothing is
required for count/delete, insert/update demand a dictionary, and the
select family demands the string all or a list of strings. -/
def fieldsCheck (m : String) (fields : PyVal) : Option String :=
  if m = "count" ∨ m = "delete" then none
  else if m = "insert" ∨ m = "update" then
    match fields with
    | .pdict _ => none
    | _ => some "Database.query@fields must be a dict for insert. \x27all\x27 is not accepted."
  else
    match fields with
    | .plist l => if l.all PyItem.isStr then none
                  else some "Database.query@fields must be \x27all\x27 or a list of str."
    | .pstr s => if s = "all" then none
                 else some "Database.query@fields must be \x27all\x27 or a list of str."
    | _ => some "Database.query@fields must be \x27all\x27 or a list of str."

/-- Extra-clause validation of Database.query (lines 470-474): a non-None
extra must be a string and must not contain the statement terminator. -/
def extraCheck (extra : PyVal) : Option String :=
  match extra with
  | .pnone => none
  | .pstr s => if strHasChar s ';' then some "Invalid MySQL command" else none
  | _ => some "Database.query@extra must be a str."

/-- The sequential argument checks of Database.query: the fields check
raises before the extra check is reached. -/
def queryChecks (m : String) (fields extra : PyVal) : Option String :=
  match fieldsCheck m fields with
  | some msg => some msg
  | none => extraCheck extra

/-- Statement assembly of Database.query (lines 476-512), after the
checks passed.  m is already lowercased.  The fall-through arms marked
unreachable cannot be taken once fieldsCheck accepted the arguments. -/
def buildQuerySql (esc : String → String) (m tbl : String)
    (fields extra : PyVal) : String :=
  let sql0 := pyUpper m ++ " "
  let sql1 :=
    if m = "select" ∨ m = "count" ∨ m = "distinct" ∨ m = "delete" then
      let s1 :=
        if m = "select" ∨ m = "distinct" then
          let base := if m = "distinct" then "SELECT DISTINCT " else sql0
          if fields = .pstr "all" then base ++ "*"
          else
            match fields with
            | .plist l => pyChop (l.foldl (fun a v => a ++ v.asStr ++ ",") base)
            | _ => pyChop base -- unreachable: fieldsCheck accepted only all or a str list
        else if m = "count" then "SELECT COUNT(*)"
        else sql0
      s1 ++ " FROM " ++ tbl
    else if m = "insert" then
      match fields with
      | .pdict d =>
        let s1 := sql0 ++ "INTO " ++ tbl ++ "("
        let s2 := pyChop (d.foldl (fun a p => a ++ p.1 ++ ",") s1) ++ ")"
        let s3 := s2 ++ " VALUES("
        pyChop (d.foldl (fun a p => a ++ ("\x27" ++ esc p.2 ++ "\x27") ++ ",") s3) ++ ")"
      | _ => sql0 -- unreachable: fieldsCheck demanded a dict
    else
      match fields with
      | .pdict d =>
        pyChop (d.foldl (fun a p => a ++ (p.1 ++ "=\x27" ++ esc p.2 ++ "\x27") ++ ",")
          (sql0 ++ tbl ++ " SET "))
      | _ => sql0 -- unreachable: fieldsCheck demanded a dict
  let sql2 :=
    match extra with
    | .pstr s => if s ≠ "" then sql1 ++ " " ++ s else sql1
    | _ => sql1
  sql2 ++ ";"

/-- Database.query (lines 435-517): open-connection check, method check,
fields/extra checks, statement assembly, delegation to sql_query.  esc
models MySQLdb.escape_string composed with decode. -/
def Database.query (db : PyDB) (srv : Schema)
    (backend : String → Option (List Row)) (esc : String → String)
    (method tbl : String) (fields extra : PyVal) : OpOut SqlResult :=
  if db.db_open = false then
    ⟨.error "You must initiate the connection.", db, srv, [], []⟩
  else
    let m := pyLower method
    if validMethods.contains m = false then
      ⟨.error "Database.query can only select, insert, delete, count, or update.", db, srv, [], []⟩
    else
      match queryChecks m fields extra with
      | some msg => ⟨.error msg, db, srv, [], []⟩
      | none => Database.sql_query db srv backend (buildQuerySql esc m tbl fields extra) (-1) 0

/-- Rendering of one optional clause: the keyword plus argument when the
Python value is truthy, the empty string otherwise (`KEYWORD + arg if arg
else ''`). -/
def clauseOf (kw : String) (arg : Option String) : String :=
  match arg with
  | some s => if s ≠ "" then kw ++ s else ""
  | none => ""

/-- Table.select (pyFramework.py lines 162-175): the four optional
clauses are each rendered or left empty, space-joined in the source order
[where, limit, orderby, groupby], and the join is passed to
Database.query as the extra argument. -/
def TableObj.select (db : PyDB) (srv : Schema)
    (backend : String → Option (List Row)) (esc : String → String)
    (t : TableObj) (fields : PyVal) (wh : Option String) (limit : Option Nat)
    (groupby orderby : Option String) : OpOut SqlResult :=
  let w := clauseOf "WHERE " wh
  let l := clauseOf "LIMIT " (limit.map (fun n => if n ≠ 0 then toString n else ""))
  let g := clauseOf "GROUP BY " groupby
  let o := clauseOf "ORDER BY " orderby
  Database.query db srv backend esc "select" t.name fields
    (.pstr (joinSep " " [w, l, o, g]))

/-- Table.distinct (lines 141-152): where, limit and orderby are each
rendered, but only the where clause is passed on to Database.query — the
computed limit and orderby strings are dropped by the source. -/
def TableObj.distinct (db : PyDB) (srv : Schema)
    (backend : String → Option (List Row)) (esc : String → String)
    (t : TableObj) (fields : PyVal) (wh : Option String) (limit : Option Nat)
    (orderby : Option String) : OpOut SqlResult :=
  let w := clauseOf "WHERE " wh
  let l := clauseOf "LIMIT " (limit.map (fun n => if n ≠ 0 then toString n else ""))
  let o := clauseOf "ORDER BY " orderby
  Database.query db srv backend esc "distinct" t.name fields (.pstr w)

/-- In-place qualification cols[i][Field] = name . cols[i][Field] of one
column dictionary (Table.join lines 200-206): reading a missing Field key
raises KeyError, concatenating a non-string value raises TypeError. -/
def qualifyRow (pre : String) (r : Row) : Except String Row :=
  match pyLookup r "Field" with
  | some (.str f) =>
      .ok (r.map fun kv => if kv.1 = "Field" then (kv.1, Cell.str (pre ++ "." ++ f)) else kv)
  | some _ => .error "TypeError: can only concatenate str to str"
  | none => .error "KeyError: Field"

def qualifyRows (pre : String) (rs : List Row) : Except String (List Row) :=
  exceptMapM (qualifyRow pre) rs

/-- Table.join (lines 186-210).  An invalid direction returns the None
sentinel before anything else happens.  Otherwise the source takes
`cols = self.cols` — an alias of self._cols, not a copy — qualifies every
Field in place, does the same to tbl._cols through temp, and extends the
aliased list with `cols += temp`.  The returned triple is therefore the
new joined Table together with self and tbl as they stand after the call:
self's columns have become the full qualified join list and tbl's columns
have been qualified in place. -/
def TableObj.join (self tbl : TableObj) (onCond : String) (aliasArg : Option String)
    (direction : String) : Except String (Option (TableObj × TableObj × TableObj)) :=
  if (["inner", "left", "right"].contains (pyLower direction)) = false then .ok none
  else
    let jname := self.name ++ " " ++ pyUpper direction ++ " JOIN " ++ tbl.name
      ++ (match aliasArg with
          | some a => if a ≠ "" then "AS " ++ a else ""
          | none => "")
      ++ " ON " ++ onCond
    match self.cols, tbl.cols with
    | .rows scs, .rows tcs =>
      match qualifyRows self.name scs with
      | .error e => .error e
      | .ok qs =>
        match qualifyRows tbl.name tcs with
        | .error e => .error e
        | .ok qt =>
          .ok (some (⟨jname, .rows (qs ++ qt)⟩, ⟨self.name, .rows (qs ++ qt)⟩,
            ⟨tbl.name, .rows qt⟩))
    | _, _ => .error "TypeError: collapsed column description is not a list of dicts"

/-- The extraction tbls = [list(i.values())[0] for i in tbls] used by
connect, close and make_classes on the rows of SHOW TABLES: an empty
dictionary raises IndexError, a non-string first value later raises when
concatenated into the DESCRIBE statement. -/
def firstValues (rs : List Row) : Except String (List String) :=
  exceptMapM (fun r =>
    match r.head? with
    | some kv =>
      match kv.2 with
      | .str s => Except.ok s
      | _ => Except.error "TypeError: can only concatenate str to str"
    | none => Except.error "IndexError: list index out of range") rs

/-- Database.connect (lines 279-301).  A second connect on an open
database is a no-op.  The SHOW TABLES answer goes through sql_query and
therefore through result collapsing: zero tables collapse to an empty
(falsy) list, so the registry is left untouched; exactly one table
collapses to a bare string whose iteration raises AttributeError; two or
more tables are registered from their DESCRIBE answers (each again
collapsed). -/
def Database.connect (db : PyDB) (srv : Schema) : OpOut Unit :=
  if db.db_open then ⟨.ok (), db, srv, [], []⟩
  else
    let db1 := { db with db_open := true }
    match collapseResult (some (showTablesRows srv)) with
    | .error e => ⟨.error e, db1, srv, ["SHOW TABLES;"], ["connect"]⟩
    | .ok .null => ⟨.ok (), db1, srv, ["SHOW TABLES;"], ["connect"]⟩
    | .ok (.rows []) => ⟨.ok (), db1, srv, ["SHOW TABLES;"], ["connect"]⟩
    | .ok (.scalar _) =>
        ⟨.error "AttributeError: str object has no attribute values", db1, srv,
          ["SHOW TABLES;"], ["connect"]⟩
    | .ok (.row _) =>
        ⟨.error "AttributeError: str object has no attribute values", db1, srv,
          ["SHOW TABLES;"], ["connect"]⟩
    | .ok (.rows rs) =>
      match firstValues rs with
      | .error e => ⟨.error e, db1, srv, ["SHOW TABLES;"], ["connect"]⟩
      | .ok names =>
        match exceptMapM (fun n =>
            (collapseResult ((lookupTable srv n).map describeRows)).map
              (fun c => TableObj.mk n c)) names with
        | .error e =>
            -- dead arm: the modelled server answers DESCRIBE with text
            -- cells, which always convert
            ⟨.error e, db1, srv,
              "SHOW TABLES;" :: names.map (fun n => "DESCRIBE " ++ n ++ ";"), ["connect"]⟩
        | .ok tabs =>
            ⟨.ok (), { db1 with tables := some tabs }, srv,
              "SHOW TABLES;" :: names.map (fun n => "DESCRIBE " ++ n ++ ";"), ["connect"]⟩

/-- Database.close (lines 321-336): on an open database _tables is
cleared first, then SHOW TABLES is read back (through result collapsing,
with the same one-table AttributeError hazard as connect) to delete the
attribute accessors, then the driver handle is closed.  On a closed
database nothing happens. -/
def Database.close (db : PyDB) (srv : Schema) : OpOut Unit :=
  if db.db_open then
    let db1 := { db with tables := none }
    match collapseResult (some (showTablesRows srv)) with
    | .error e => ⟨.error e, db1, srv, ["SHOW TABLES;"], []⟩
    | .ok .null => ⟨.ok (), { db1 with db_open := false }, srv, ["SHOW TABLES;"], ["close"]⟩
    | .ok (.rows []) =>
        ⟨.ok (), { db1 with db_open := false }, srv, ["SHOW TABLES;"], ["close"]⟩
    | .ok (.scalar _) =>
        ⟨.error "AttributeError: str object has no attribute values", db1, srv,
          ["SHOW TABLES;"], []⟩
    | .ok (.row _) =>
        ⟨.error "AttributeError: str object has no attribute values", db1, srv,
          ["SHOW TABLES;"], []⟩
    | .ok (.rows rs) =>
      match firstValues rs with
      | .error e => ⟨.error e, db1, srv, ["SHOW TABLES;"], []⟩
      | .ok _ => ⟨.ok (), { db1 with db_open := false }, srv, ["SHOW TABLES;"], ["close"]⟩
  else ⟨.ok (), db, srv, [], []⟩

/-- Database.commit (lines 303-310): delegates to the driver handle when
open, does nothing when closed; no SQL text is built either way. -/
def Database.commit (db : PyDB) (srv : Schema) : OpOut Unit :=
  if db.db_open then ⟨.ok (), db, srv, [], ["commit"]⟩
  else ⟨.ok (), db, srv, [], []⟩

/-- Database.rollback (lines 312-319): as commit. -/
def Database.rollback (db : PyDB) (srv : Schema) : OpOut Unit :=
  if db.db_open then ⟨.ok (), db, srv, [], ["rollback"]⟩
  else ⟨.ok (), db, srv, [], []⟩

/-- Column definitions as the modelled server reads them from the textual
spec of a CREATE TABLE: comma-separated entries, each a name followed by
its definition. -/
def parseColDef (s : String) : Col :=
  match (splitChar ' ' s.data).map (fun l => String.mk l) with
  | f :: rest => ⟨f, joinSep " " rest⟩
  | [] => ⟨"", ""⟩

/-- Leading spaces left over after splitting a definition list on the
commas. -/
def trimLead : List Char → List Char
  | ' ' :: r => trimLead r
  | r => r

def colsOfSpec (spec : String) : List Col :=
  (((splitChar ',' spec.data).map (fun l => String.mk (trimLead l))).filter
    (fun s => s ≠ "")).map parseColDef

/-- Rendering of the make_table fields argument (lines 622-627): a string
is taken as is, a dictionary becomes comma-joined name-definition pairs,
any other iterable is comma-joined (raising on non-string items), and a
non-iterable raises at list(). -/
def makeTableFieldsSpec (fields : PyVal) : Except String String :=
  match fields with
  | .pstr s => .ok s
  | .pdict d => .ok (joinSep ", " (d.map fun p => p.1 ++ " " ++ p.2))
  | .plist l =>
      if l.all PyItem.isStr then .ok (joinSep ", " (l.map PyItem.asStr))
      else .error "TypeError: sequence item expected str instance"
  | _ => .error "TypeError: object is not iterable"

/-- Removal of the registry entry found by
del self._tables[self.table_names.index(name)]. -/
def eraseTable (ts : List TableObj) (name : String) : List TableObj :=
  ts.eraseP (fun x => x.name == name)

/-- Database.make_table (lines 596-655).  The modelled server executes
CREATE TABLE [IF NOT EXISTS]: with IF NOT EXISTS an existing table is
kept, without it a duplicate is rejected; DESCRIBE is answered from the
schema.  Class-file generation (mk_class) only touches the filesystem.
The final registry update self._tables += [...] raises TypeError when the
registry is still None — after the CREATE has already run. -/
def Database.make_table (db : PyDB) (srv : Schema) (name : String)
    (fields : PyVal) (temp clobber : Bool) : OpOut (Option TableObj) :=
  if db.db_open = false then ⟨.ok none, db, srv, [], []⟩
  else
    match makeTableFieldsSpec fields with
    | .error e => ⟨.error e, db, srv, [], []⟩
    | .ok spec =>
      let sql := "CREATE " ++ (if temp then "TEMPORARY " else "") ++ "TABLE "
        ++ (if clobber then "" else "IF NOT EXISTS ") ++ name ++ "(" ++ spec ++ ");"
      if (lookupTable srv name).isSome ∧ clobber = true then
        ⟨.error "OperationalError: table already exists", db, srv, [sql], []⟩
      else
        let srv1 := if (lookupTable srv name).isSome then srv
                    else srv ++ [(name, colsOfSpec spec)]
        match lookupTable srv1 name with
        | none => ⟨.error "ProgrammingError: table does not exist", db, srv1,
            [sql, "DESCRIBE " ++ name ++ ";"], []⟩
        | some cols0 =>
          let sent := [sql, "DESCRIBE " ++ name ++ ";"]
          match collapseResult (some (describeRows cols0)) with
          | .error e => ⟨.error e, db, srv1, sent, []⟩ -- dead arm: text cells always convert
          | .ok cols =>
            let tblObj : TableObj := ⟨name, cols⟩
            match db.tables with
            | none =>
                ⟨.error "TypeError: unsupported operand types for +=: NoneType and list",
                  db, srv1, sent, []⟩
            | some ts =>
              let ts1 := if (ts.map (·.name)).contains name then eraseTable ts name else ts
              ⟨.ok (some tblObj), { db with tables := some (ts1 ++ [tblObj]) }, srv1, sent, []⟩

/-- Database.drop_table (lines 658-686): DROP TABLE IF EXISTS never
fails on a missing table; the registry entry and attribute accessor are
removed when present.  rm_class only touches the filesystem. -/
def Database.drop_table (db : PyDB) (srv : Schema) (name : String)
    (temp rm_class : Bool) : OpOut Unit :=
  if db.db_open = false then ⟨.ok (), db, srv, [], []⟩
  else
    let sql := "DROP " ++ (if temp then "TEMPORARY " else "") ++ "TABLE IF EXISTS "
      ++ name ++ ";"
    let srv1 := srv.eraseP (fun p => p.1 == name)
    let db1 :=
      match db.tables with
      | some ts =>
        if (ts.map (·.name)).contains name then { db with tables := some (eraseTable ts name) }
        else db
      | none => db
    ⟨.ok (), db1, srv1, [sql], []⟩

/-- Database.move_table (lines 689-727): ALTER TABLE RENAME, rejected by
the server when the old table is missing or the new name is taken; then
DESCRIBE of the new name, class-file move, and registry update (the old
entry removed, the new one appended) — which raises TypeError when the
registry is still None, after the rename already ran. -/
def Database.move_table (db : PyDB) (srv : Schema) (old_name new_name : String)
    (mv_class : Bool) : OpOut (Option TableObj) :=
  if db.db_open = false then ⟨.ok none, db, srv, [], []⟩
  else
    let sql := "ALTER TABLE " ++ old_name ++ " RENAME TO " ++ new_name ++ ";"
    match lookupTable srv old_name with
    | none => ⟨.error "ProgrammingError: table does not exist", db, srv, [sql], []⟩
    | some cols0 =>
      if (lookupTable srv new_name).isSome then
        ⟨.error "OperationalError: table exists", db, srv, [sql], []⟩
      else
        let srv1 := srv.map fun p => if p.1 == old_name then (new_name, p.2) else p
        let sent := [sql, "DESCRIBE " ++ new_name ++ ";"]
        match collapseResult (some (describeRows cols0)) with
        | .error e => ⟨.error e, db, srv1, sent, []⟩ -- dead arm: text cells always convert
        | .ok cols =>
          let tblObj : TableObj := ⟨new_name, cols⟩
          match db.tables with
          | none =>
              ⟨.error "TypeError: unsupported operand types for +=: NoneType and list",
                db, srv1, sent, []⟩
          | some ts =>
            let ts1 := if (ts.map (·.name)).contains old_name then eraseTable ts old_name
                       else ts
            ⟨.ok (some tblObj), { db with tables := some (ts1 ++ [tblObj]) }, srv1, sent, []⟩

/-- Database.truncate_table (lines 730-735): row data is not part of the
modelled schema, so the server state is unchanged. -/
def Database.truncate_table (db : PyDB) (srv : Schema) (name : String) : OpOut Unit :=
  if db.db_open then ⟨.ok (), db, srv, ["TRUNCATE TABLE " ++ name ++ ";"], []⟩
  else ⟨.ok (), db, srv, [], []⟩

/-- Position handling of ALTER TABLE ADD COLUMN on the modelled server:
empty `after` appends, `first` prepends, otherwise the new column goes
after the named one (missing reference rejected). -/
def insertColAt (cols : List Col) (field definition after : String) : Option (List Col) :=
  if after = "" then some (cols ++ [⟨field, definition⟩])
  else if pyLower after = "first" then some (⟨field, definition⟩ :: cols)
  else if (cols.map (·.field)).contains after then
    some ((cols.map fun c =>
      if c.field == after then [c, ⟨field, definition⟩] else [c]).flatten)
  else none

def updateTable (srv : Schema) (name : String) (cols : List Col) : Schema :=
  srv.map fun p => if p.1 == name then (name, cols) else p

/-- Database.add_column (lines 737-768): build and run the ALTER, then
remake_class (one extra DESCRIBE when alter_class; its file write is
outside the modelled state), then re-describe and replace the registry
entry — raising TypeError when the registry is still None. -/
def Database.add_column (db : PyDB) (srv : Schema)
    (name field definition after : String) (alter_class : Bool) : OpOut (Option TableObj) :=
  if db.db_open = false then ⟨.ok none, db, srv, [], []⟩
  else
    let sql := "ALTER TABLE " ++ name ++ " ADD COLUMN " ++ field ++ " " ++ definition
      ++ (if after ≠ "" then
            (if pyLower after = "first" then " FIRST" else " AFTER " ++ after)
          else "") ++ ";"
    match lookupTable srv name with
    | none => ⟨.error "ProgrammingError: table does not exist", db, srv, [sql], []⟩
    | some cols0 =>
      if (cols0.map (·.field)).contains field then
        ⟨.error "OperationalError: duplicate column name", db, srv, [sql], []⟩
      else
        match insertColAt cols0 field definition after with
        | none => ⟨.error "OperationalError: unknown column in AFTER", db, srv, [sql], []⟩
        | some cols1 =>
          let srv1 := updateTable srv name cols1
          let desc := "DESCRIBE " ++ name ++ ";"
          let sent := [sql] ++ (if alter_class then [desc] else []) ++ [desc]
          match collapseResult (some (describeRows cols1)) with
          | .error e => ⟨.error e, db, srv1, sent, []⟩ -- dead arm: text cells always convert
          | .ok cols =>
            let tblObj : TableObj := ⟨name, cols⟩
            match db.tables with
            | none =>
                ⟨.error "TypeError: unsupported operand types for +=: NoneType and list",
                  db, srv1, sent, []⟩
            | some ts =>
              let ts1 := if (ts.map (·.name)).contains name then eraseTable ts name else ts
              ⟨.ok (some tblObj), { db with tables := some (ts1 ++ [tblObj]) }, srv1, sent, []⟩

/-- Database.drop_column (lines 770-793): as add_column, with the server
removing the named column (missing column rejected). -/
def Database.drop_column (db : PyDB) (srv : Schema) (name field : String)
    (alter_class : Bool) : OpOut (Option TableObj) :=
  if db.db_open = false then ⟨.ok none, db, srv, [], []⟩
  else
    let sql := "ALTER TABLE " ++ name ++ " DROP COLUMN " ++ field ++ ";"
    match lookupTable srv name with
    | none => ⟨.error "ProgrammingError: table does not exist", db, srv, [sql], []⟩
    | some cols0 =>
      if (cols0.map (·.field)).contains field = false then
        ⟨.error "OperationalError: cannot drop unknown column", db, srv, [sql], []⟩
      else
        let cols1 := cols0.eraseP (fun c => c.field == field)
        let srv1 := updateTable srv name cols1
        let desc := "DESCRIBE " ++ name ++ ";"
        let sent := [sql] ++ (if alter_class then [desc] else []) ++ [desc]
        match collapseResult (some (describeRows cols1)) with
        | .error e => ⟨.error e, db, srv1, sent, []⟩ -- dead arm: text cells always convert
        | .ok cols =>
          let tblObj : TableObj := ⟨name, cols⟩
          match db.tables with
          | none =>
              ⟨.error "TypeError: unsupported operand types for +=: NoneType and list",
                db, srv1, sent, []⟩
          | some ts =>
            let ts1 := if (ts.map (·.name)).contains name then eraseTable ts name else ts
            ⟨.ok (some tblObj), { db with tables := some (ts1 ++ [tblObj]) }, srv1, sent, []⟩

/-- Database.alter_column (lines 796-821).  Note the source builds
CHANGE COLUMN field (new_name if new_name else name): with the default
empty new_name the column is renamed to the TABLE name (line 810 falls
back to name, not to field). -/
def Database.alter_column (db : PyDB) (srv : Schema)
    (name field definition new_name : String) (alter_class : Bool) : OpOut (Option TableObj) :=
  if db.db_open = false then ⟨.ok none, db, srv, [], []⟩
  else
    let target := if new_name ≠ "" then new_name else name
    let sql := "ALTER TABLE " ++ name ++ " CHANGE COLUMN " ++ field ++ " " ++ target
      ++ " " ++ definition ++ ";"
    match lookupTable srv name with
    | none => ⟨.error "ProgrammingError: table does not exist", db, srv, [sql], []⟩
    | some cols0 =>
      if (cols0.map (·.field)).contains field = false then
        ⟨.error "OperationalError: unknown column", db, srv, [sql], []⟩
      else
        let cols1 := cols0.map fun c => if c.field == field then ⟨target, definition⟩ else c
        let srv1 := updateTable srv name cols1
        let desc := "DESCRIBE " ++ name ++ ";"
        let sent := [sql] ++ (if alter_class then [desc] else []) ++ [desc]
        match collapseResult (some (describeRows cols1)) with
        | .error e => ⟨.error e, db, srv1, sent, []⟩ -- dead arm: text cells always convert
        | .ok cols =>
          let tblObj : TableObj := ⟨name, cols⟩
          match db.tables with
          | none =>
              ⟨.error "TypeError: unsupported operand types for +=: NoneType and list",
                db, srv1, sent, []⟩
          | some ts =>
            let ts1 := if (ts.map (·.name)).contains name then eraseTable ts name else ts
            ⟨.ok (some tblObj), { db with tables := some (ts1 ++ [tblObj]) }, srv1, sent, []⟩

/-- Database.add_fk (lines 823-835): foreign keys are not represented in
the modelled schema, so the server accepts the statement without further
state change. -/
def Database.add_fk (db : PyDB) (srv : Schema) (name table field ref : String) : OpOut Unit :=
  if db.db_open then
    ⟨.ok (), db, srv,
      ["ALTER TABLE " ++ table ++ " ADD CONSTRAINT fk_" ++ name ++ " FOREIGN KEY ("
        ++ field ++ ") REFERENCES " ++ ref ++ ";"], []⟩
  else ⟨.ok (), db, srv, [], []⟩

/-- Database.drop_fk (lines 837-846): as add_fk. -/
def Database.drop_fk (db : PyDB) (srv : Schema) (name table : String) : OpOut Unit :=
  if db.db_open then
    ⟨.ok (), db, srv, ["ALTER TABLE " ++ table ++ " DROP FOREIGN KEY fk_" ++ name ++ ";"], []⟩
  else ⟨.ok (), db, srv, [], []⟩

/-- Python truthiness of a driver cell value. -/
def cellTruthy : Cell → Bool
  | .null => false
  | .str s => s ≠ ""
  | .int n => n ≠ 0
  | .bytes b => b ≠ ""

/-- The error slot of usermgr.login: the source assigns it either a
string or the bool result of `not verify(...)`. -/
inductive LoginErr where
  | s (msg : String) : LoginErr
  | b (v : Bool) : LoginErr
deriving DecidableEq, Repr

/-- usermgr.login (usermgr.py lines 45-71).  fetch models
db.users.select('all', where=...) including result collapsing; verify
models passlib pbkdf2_sha256.verify; esc models escape_string.  A wrong
password yields the empty user and the Incorrect password message; a
verified password leaves error as the bool False, faithful to the
source.  A result that collapsed to a bare truthy value or to a multi-row
list makes the user[password] subscript raise. -/
def login (dbopen : Bool) (fetch : String → SqlResult)
    (verify : String → String → Bool) (esc : String → String)
    (username password : String) : Except String (Row × LoginErr) :=
  if dbopen = false then
    .ok ([], .s "Database must be opened. Please contact site owner.")
  else
    match fetch ("username=\x27" ++ esc username ++ "\x27") with
    | .null => .ok ([], .s ("Username " ++ username ++ " was not found."))
    | .rows [] => .ok ([], .s ("Username " ++ username ++ " was not found."))
    | .scalar v =>
      if cellTruthy v then .error "TypeError: string indices must be integers"
      else .ok ([], .s ("Username " ++ username ++ " was not found."))
    | .row r =>
      if r = [] then .ok ([], .s ("Username " ++ username ++ " was not found."))
      else
        match pyLookup r "password" with
        | none => .error "KeyError: password"
        | some (.str h) =>
          if verify password h = false then .ok ([], .s "Incorrect password.")
          else .ok (r, .b false)
        | some _ => .error "TypeError: hash must be a unicode string"
    | .rows _ => .error "TypeError: list indices must be integers"

/-- usermgr.signup (usermgr.py lines 74-106).  On an open database the
duplicate-username guard is `elif get_userID(username):` — a call of the
two-parameter get_userID(db, username) with a single argument, which
raises TypeError in Python before any table access.  On a closed database
the guard is skipped but the unconditional `cols = db.users.col_names()`
line raises, because a closed Database carries no users attribute (close
deletes the table attributes; and col_names is a property, not a
callable).  The insert branch is unreachable either way. -/
def signup (db : PyDB) (username password email : String)
    (kwargs : List (String × String)) : Except String String :=
  if db.db_open = false then
    .error "AttributeError: Database object has no attribute users"
  else
    .error "TypeError: get_userID missing 1 required positional argument"

/-- A Database handle in the open state with a discovered-empty registry,
used as the concrete open state of the witnesses. -/
def pfOpenDB : PyDB := ⟨"host", "user", "pw", "db", true, some []⟩

/-- A Database handle in the closed state. -/
def pfClosedDB : PyDB := ⟨"host", "user", "pw", "db", false, none⟩

/-- A two-column table `a`, as connect would register it. -/
def tblA : TableObj :=
  ⟨"a", .rows [[("Field", Cell.str "id"), ("Type", Cell.str "int(11)")],
               [("Field", Cell.str "val"), ("Type", Cell.str "int(11)")]]⟩

/-- A two-column table `b` with the same column names as `a`. -/
def tblB : TableObj :=
  ⟨"b", .rows [[("Field", Cell.str "id"), ("Type", Cell.str "int(11)")],
               [("Field", Cell.str "val"), ("Type", Cell.str "int(11)")]]⟩

/-- The qualified column dictionaries a.join(b, ...) produces — and, by
mutation, also leaves behind in table a. -/
def joinedColsAB : List Row :=
  [[("Field", Cell.str "a.id"), ("Type", Cell.str "int(11)")],
   [("Field", Cell.str "a.val"), ("Type", Cell.str "int(11)")],
   [("Field", Cell.str "b.id"), ("Type", Cell.str "int(11)")],
   [("Field", Cell.str "b.val"), ("Type", Cell.str "int(11)")]]

/-- The qualified column dictionaries left behind in table b. -/
def joinedColsB : List Row :=
  [[("Field", Cell.str "b.id"), ("Type", Cell.str "int(11)")],
   [("Field", Cell.str "b.val"), ("Type", Cell.str "int(11)")]]

/- Helper lemmas about the Python string idioms of the query builder. -/

theorem str_append_assoc (a b c : String) : a ++ b ++ c = a ++ (b ++ c) := by
  rcases a with ⟨A⟩; rcases b with ⟨B⟩; rcases c with ⟨C⟩
  show String.mk (A ++ B ++ C) = String.mk (A ++ (B ++ C))
  rw [List.append_assoc]

theorem pyChop_append_comma (s : String) : pyChop (s ++ ",") = s := by
  rcases s with ⟨S⟩
  show String.mk ((S ++ [',']).dropLast) = String.mk S
  rw [List.dropLast_concat]

/-- The accumulate-comma-then-chop idiom of Database.query equals the
comma-separated join for a nonempty list. -/
theorem chopFold {α : Type} (g : α → String) (l : List α) :
    ∀ (a : α) (pre : String),
      pyChop ((a :: l).foldl (fun acc x => acc ++ g x ++ ",") pre)
        = pre ++ commaSep ((a :: l).map g) := by
  induction l with
  | nil =>
      intro a pre
      show pyChop (pre ++ g a ++ ",") = pre ++ commaSep [g a]
      rw [pyChop_append_comma, commaSep]
  | cons b t ih =>
      intro a pre
      show pyChop ((b :: t).foldl (fun acc x => acc ++ g x ++ ",") (pre ++ g a ++ ","))
        = pre ++ commaSep (g a :: (b :: t).map g)
      rw [ih b (pre ++ g a ++ ",")]
      show (pre ++ g a ++ ",") ++ commaSep ((b :: t).map g)
        = pre ++ (g a ++ "," ++ commaSep ((b :: t).map g))
      simp [str_append_assoc]

/-- Claim C1 counterexample: a statement whose result set exists but has
zero rows — a SELECT matching nothing — comes back from
Database.sql_query as the empty list, not as None. -/
theorem c1_no_rows_returns_empty_list_not_none :
    (Database.sql_query pfOpenDB [] (fun _ => some [])
        "SELECT * FROM t WHERE id=999;" (-1) 0).ret = .ok (SqlResult.rows []) ∧
    SqlResult.rows [] ≠ SqlResult.null :=
  ⟨rfl, by decide⟩

/-- Claim C1 amended: for every statement executed through
Database.sql_query on an open connection, a statement producing no result
set returns None; a result set with zero rows returns the empty list;
exactly one row with exactly one column whose cell converts returns that
bare converted value; exactly one row with several columns returns the
converted row-mapping; several rows return the ordered list of converted
row-mappings; and a cell whose bytes repr is not a valid hexadecimal
literal makes the conversion raise, the ValueError propagating out of
sql_query. -/
theorem c1_sql_query_result_shapes (db : PyDB) (srv : Schema) (q : String)
    (h : db.db_open = true) :
    ((Database.sql_query db srv (fun _ => none) q (-1) 0).ret = .ok SqlResult.null) ∧
    ((Database.sql_query db srv (fun _ => some []) q (-1) 0).ret = .ok (SqlResult.rows [])) ∧
    (∀ (k : String) (c c1 : Cell), convertCell c = .ok c1 →
      (Database.sql_query db srv (fun _ => some [[(k, c)]]) q (-1) 0).ret
        = .ok (SqlResult.scalar c1)) ∧
    (∀ (k1 k2 : String) (c1 c2 d1 d2 : Cell) (r r1 : Row),
      convertCell c1 = .ok d1 → convertCell c2 = .ok d2 → convRow r = .ok r1 →
      (Database.sql_query db srv (fun _ => some [(k1, c1) :: (k2, c2) :: r]) q (-1) 0).ret
        = .ok (SqlResult.row ((k1, d1) :: (k2, d2) :: r1))) ∧
    (∀ (r1 r2 : Row) (rs : List Row) (s1 s2 : Row) (ss : List Row),
      convRow r1 = .ok s1 → convRow r2 = .ok s2 → exceptMapM convRow rs = .ok ss →
      (Database.sql_query db srv (fun _ => some (r1 :: r2 :: rs)) q (-1) 0).ret
        = .ok (SqlResult.rows (s1 :: s2 :: ss))) ∧
    (∀ (k : String) (c : Cell) (e : String), convertCell c = .error e →
      (Database.sql_query db srv (fun _ => some [[(k, c)]]) q (-1) 0).ret = .error e) := by
  refine ⟨?_, ?_, ?_, ?_, ?_, ?_⟩ <;>
  · intros
    simp_all [Database.sql_query, h, collapseResult, convRow, exceptMapM, Except.map,
      show ¬((0 : Int) < (-1 : Int)) by decide]

/-- Claim C1 witness: the amended shape theorem applied at a concrete
open database, a concrete convertible one-row-one-column result, and a
concrete multi-byte binary cell whose conversion raises. -/
theorem c1_sql_query_result_shapes_witness :
    ((Database.sql_query pfOpenDB [] (fun _ => some [[("id", Cell.bytes "\\xff")]])
        "SELECT id FROM t WHERE id=1;" (-1) 0).ret
      = .ok (SqlResult.scalar (Cell.int 255))) ∧
    ((Database.sql_query pfOpenDB [] (fun _ => some [[("id", Cell.bytes "\\x01\\x02")]])
        "SELECT id FROM t WHERE id=1;" (-1) 0).ret
      = .error "ValueError: invalid literal for int() with base 16") := by
  have h := c1_sql_query_result_shapes pfOpenDB [] "SELECT id FROM t WHERE id=1;" rfl
  exact ⟨h.2.2.1 "id" (Cell.bytes "\\xff") (Cell.int 255) (by decide),
    h.2.2.2.2.2 "id" (Cell.bytes "\\x01\\x02")
      "ValueError: invalid literal for int() with base 16" (by decide)⟩

/-- Claim C2 (code bug): connect on a server with zero tables leaves the
registry None; make_table then raises TypeError at self._tables += [...]
after the CREATE TABLE statement has already been executed, so the schema
gains the new table while table_names stays empty — schema and registry
are neither updated together nor left unchanged together. -/
theorem c2_make_table_breaks_registry_sync :
    (Database.connect (Database.init_ "h" "u" "p" "d") []).db
        = ⟨"h", "u", "p", "d", true, none⟩ ∧
    (Database.make_table ⟨"h", "u", "p", "d", true, none⟩ [] "t"
        (.pdict [("id", "INT")]) false false).ret
        = .error "TypeError: unsupported operand types for +=: NoneType and list" ∧
    (Database.make_table ⟨"h", "u", "p", "d", true, none⟩ [] "t"
        (.pdict [("id", "INT")]) false false).srv = [("t", [⟨"id", "INT"⟩])] ∧
    table_names (Database.make_table ⟨"h", "u", "p", "d", true, none⟩ [] "t"
        (.pdict [("id", "INT")]) false false).db = [] ∧
    (Database.make_table ⟨"h", "u", "p", "d", true, none⟩ [] "t"
        (.pdict [("id", "INT")]) false false).sent
        = ["CREATE TABLE IF NOT EXISTS t(id INT);", "DESCRIBE t;"] :=
  ⟨rfl, rfl, rfl, rfl, rfl⟩

/-- Claim C5 (code bug): a.join(b, on=...) succeeds and returns the
qualified join Table, but it also qualifies the column dictionaries of
both argument tables in place — a's columns become the full qualified
join list and b's columns are qualified too — so the cols and col_names
of a and b are NOT identical before and after the call. -/
theorem c5_join_mutates_argument_tables :
    TableObj.join tblA tblB "a.id=b.id" none "inner"
      = .ok (some (⟨"a INNER JOIN b ON a.id=b.id", .rows joinedColsAB⟩,
          ⟨"a", .rows joinedColsAB⟩, ⟨"b", .rows joinedColsB⟩)) ∧
    SqlResult.rows joinedColsAB ≠ tblA.cols ∧
    SqlResult.rows joinedColsB ≠ tblB.cols ∧
    TableObj.col_names ⟨"a", .rows joinedColsAB⟩
      = .ok [Cell.str "a.id", Cell.str "a.val", Cell.str "b.id", Cell.str "b.val"] ∧
    TableObj.col_names tblA = .ok [Cell.str "id", Cell.str "val"] :=
  ⟨rfl, by decide, by decide, rfl, rfl⟩

/-- Claim C6 (code bug): Table.distinct with supplied where, limit and
orderby sends only SELECT DISTINCT fields FROM name WHERE ...; the
computed LIMIT and ORDER BY clauses are silently dropped. -/
theorem c6_distinct_drops_limit_and_orderby :
    (TableObj.distinct pfOpenDB [] (fun _ => none) id ⟨"t", .rows []⟩
        (.plist [.istr "a"]) (some "x=1") (some 5) (some "a")).sent
      = ["SELECT DISTINCT a FROM t WHERE x=1;"] ∧
    strContains "SELECT DISTINCT a FROM t WHERE x=1;" "LIMIT" = false ∧
    strContains "SELECT DISTINCT a FROM t WHERE x=1;" "ORDER BY" = false :=
  ⟨rfl, by decide, by decide⟩

/-- Claim C9 (code bug): signup against an open database raises TypeError
— its duplicate-username guard calls the two-parameter get_userID with a
single argument — instead of returning an error string; the login part of
the claim holds: a wrong password yields ({}, Incorrect password.)
without raising. -/
theorem c9_signup_raises_but_login_converts_errors :
    signup pfOpenDB "alice" "pw" "a@x.com" []
      = .error "TypeError: get_userID missing 1 required positional argument" ∧
    login true
      (fun _ => .row [("userid", Cell.int 1), ("username", Cell.str "alice"),
        ("password", Cell.str "hashpw"), ("email", Cell.str "a@x.com")])
      (fun p h => h == "hash" ++ p) id "alice" "wrong"
      = .ok ([], .s "Incorrect password.") :=
  ⟨rfl, rfl⟩

/-- Claim C3: while the connection is closed, sql_query and query raise
the connection error, and commit, rollback, close and every DDL operation
(make_table, drop_table, move_table, truncate_table, add_column,
drop_column, alter_column, add_fk, drop_fk) send no SQL, make no driver
call, leave all state unchanged, and return without raising. -/
theorem c3_closed_connection_sends_nothing (db : PyDB) (h : db.db_open = false) :
    (∀ srv backend q limit offset,
      Database.sql_query db srv backend q limit offset
        = ⟨.error "You must initiate the connection.", db, srv, [], []⟩) ∧
    (∀ srv backend esc method tbl fields extra,
      Database.query db srv backend esc method tbl fields extra
        = ⟨.error "You must initiate the connection.", db, srv, [], []⟩) ∧
    (∀ srv, Database.commit db srv = ⟨.ok (), db, srv, [], []⟩) ∧
    (∀ srv, Database.rollback db srv = ⟨.ok (), db, srv, [], []⟩) ∧
    (∀ srv, Database.close db srv = ⟨.ok (), db, srv, [], []⟩) ∧
    (∀ srv name fields temp clobber,
      Database.make_table db srv name fields temp clobber = ⟨.ok none, db, srv, [], []⟩) ∧
    (∀ srv name temp rm_class,
      Database.drop_table db srv name temp rm_class = ⟨.ok (), db, srv, [], []⟩) ∧
    (∀ srv old_name new_name mv_class,
      Database.move_table db srv old_name new_name mv_class = ⟨.ok none, db, srv, [], []⟩) ∧
    (∀ srv name, Database.truncate_table db srv name = ⟨.ok (), db, srv, [], []⟩) ∧
    (∀ srv name field definition after alter_class,
      Database.add_column db srv name field definition after alter_class
        = ⟨.ok none, db, srv, [], []⟩) ∧
    (∀ srv name field alter_class,
      Database.drop_column db srv name field alter_class = ⟨.ok none, db, srv, [], []⟩) ∧
    (∀ srv name field definition new_name alter_class,
      Database.alter_column db srv name field definition new_name alter_class
        = ⟨.ok none, db, srv, [], []⟩) ∧
    (∀ srv name table field ref,
      Database.add_fk db srv name table field ref = ⟨.ok (), db, srv, [], []⟩) ∧
    (∀ srv name table, Database.drop_fk db srv name table = ⟨.ok (), db, srv, [], []⟩) := by
  refine ⟨?_, ?_, ?_, ?_, ?_, ?_, ?_, ?_, ?_, ?_, ?_, ?_, ?_, ?_⟩ <;>
  · intros
    simp [Database.sql_query, Database.query, Database.commit, Database.rollback,
      Database.close, Database.make_table, Database.drop_table, Database.move_table,
      Database.truncate_table, Database.add_column, Database.drop_column,
      Database.alter_column, Database.add_fk, Database.drop_fk, h]

/-- Claim C3 witness: the closed-connection theorem applied to a concrete
closed database, a concrete query, and a concrete DDL call. -/
theorem c3_closed_connection_witness :
    Database.sql_query pfClosedDB [] (fun _ => none) "SELECT 1;" (-1) 0
      = ⟨.error "You must initiate the connection.", pfClosedDB, [], [], []⟩ ∧
    Database.make_table pfClosedDB [] "t" (.pstr "id INT") false false
      = ⟨.ok none, pfClosedDB, [], [], []⟩ ∧
    Database.commit pfClosedDB [] = ⟨.ok (), pfClosedDB, [], [], []⟩ := by
  have h := c3_closed_connection_sends_nothing pfClosedDB rfl
  exact ⟨h.1 [] (fun _ => none) "SELECT 1;" (-1) 0,
    h.2.2.2.2.2.1 [] "t" (.pstr "id INT") false false, h.2.2.1 []⟩

/-- Claim C4 counterexample: select with fields=[a] and no optional
clauses does not produce `SELECT a FROM t;` — the blank clause slots
leave four spaces before the terminator. -/
theorem c4_select_not_trimmed :
    (TableObj.select pfOpenDB [] (fun _ => none) id ⟨"t", .rows []⟩
        (.plist [.istr "a"]) none none none none).sent = ["SELECT a FROM t    ;"] ∧
    ["SELECT a FROM t    ;"] ≠ ["SELECT a FROM t;"] :=
  ⟨rfl, by decide⟩

/-- Claim C4 amended: each absent optional clause contributes an empty
string, but the space-join of the four clause slots is appended after a
further space even when entirely blank and nothing is trimmed: for every
escape function, backend, field name f and table name t, select with only
fields=[f] produces exactly `SELECT f FROM t` followed by four spaces and
the terminator. -/
theorem c4_select_blank_clauses (esc : String → String)
    (backend : String → Option (List Row)) (f tname : String) (cols : SqlResult) :
    (TableObj.select pfOpenDB [] backend esc ⟨tname, cols⟩ (.plist [.istr f])
        none none none none).sent
      = ["SELECT " ++ f ++ " FROM " ++ tname ++ "    ;"] := by
  simp +decide [TableObj.select, Database.query, Database.sql_query, buildQuerySql,
    queryChecks, fieldsCheck, extraCheck, clauseOf, validMethods, joinSep,
    strHasChar, PyItem.asStr, PyItem.isStr,
    show pyLower "select" = "select" from rfl,
    show pyUpper "select" = "SELECT" from rfl]
  rw [pyChop_append_comma ("SELECT " ++ f)]
  simp [str_append_assoc]

set_option maxHeartbeats 1000000 in
/-- Specialisation of chopFold to the quoted-escaped-value rendering of
the insert branch of Database.query. -/
theorem chopFoldVal (esc : String → String) (l : List (String × String))
    (a : String × String) (pre : String) :
    pyChop ((a :: l).foldl (fun acc p => acc ++ ("\x27" ++ esc p.2 ++ "\x27") ++ ",") pre)
      = pre ++ commaSep ((a :: l).map fun p => "\x27" ++ esc p.2 ++ "\x27") :=
  chopFold (fun p => "\x27" ++ esc p.2 ++ "\x27") l a pre

set_option maxHeartbeats 1000000 in
/-- Specialisation of chopFold to the name-equals-escaped-value rendering
of the update branch of Database.query. -/
theorem chopFoldSet (esc : String → String) (l : List (String × String))
    (a : String × String) (pre : String) :
    pyChop ((a :: l).foldl (fun acc p => acc ++ (p.1 ++ "=\x27" ++ esc p.2 ++ "\x27") ++ ",") pre)
      = pre ++ commaSep ((a :: l).map fun p => p.1 ++ "=\x27" ++ esc p.2 ++ "\x27") :=
  chopFold (fun p => p.1 ++ "=\x27" ++ esc p.2 ++ "\x27") l a pre

/-- Claim C7: Database.query on an open connection with malformed
arguments — an (lowercased) method outside the accepted set, a fields
value of the wrong shape for the method, a non-string extra, or an extra
containing the statement terminator — raises before any SQL is sent: the
sent list is empty and the database object and schema are returned
unchanged. -/
theorem c7_query_validation_aborts_before_sql (db : PyDB) (srv : Schema)
    (backend : String → Option (List Row)) (esc : String → String)
    (method tbl : String) (fields extra : PyVal) (hopen : db.db_open = true) :
    (pyLower method ∉ validMethods →
      Database.query db srv backend esc method tbl fields extra
        = ⟨.error "Database.query can only select, insert, delete, count, or update.",
            db, srv, [], []⟩) ∧
    ((pyLower method = "insert" ∨ pyLower method = "update") →
      (∀ d, fields ≠ .pdict d) →
      Database.query db srv backend esc method tbl fields extra
        = ⟨.error "Database.query@fields must be a dict for insert. \x27all\x27 is not accepted.",
            db, srv, [], []⟩) ∧
    ((pyLower method = "select" ∨ pyLower method = "distinct") →
      ¬ (fields = .pstr "all" ∨ ∃ l, fields = .plist l ∧ l.all PyItem.isStr = true) →
      Database.query db srv backend esc method tbl fields extra
        = ⟨.error "Database.query@fields must be \x27all\x27 or a list of str.",
            db, srv, [], []⟩) ∧
    (pyLower method ∈ validMethods →
      fieldsCheck (pyLower method) fields = none →
      extra ≠ .pnone → (∀ s, extra ≠ .pstr s) →
      Database.query db srv backend esc method tbl fields extra
        = ⟨.error "Database.query@extra must be a str.", db, srv, [], []⟩) ∧
    (pyLower method ∈ validMethods →
      fieldsCheck (pyLower method) fields = none →
      ∀ s, extra = .pstr s → strHasChar s ';' = true →
      Database.query db srv backend esc method tbl fields extra
        = ⟨.error "Invalid MySQL command", db, srv, [], []⟩) := by
  refine ⟨?_, ?_, ?_, ?_, ?_⟩
  · intro h1
    simp [Database.query, hopen, h1]
  · intro h2 h3
    have hcd : ¬ (pyLower method = "count" ∨ pyLower method = "delete") := by
      rcases h2 with h2 | h2 <;> rw [h2] <;> decide
    have hd : fieldsCheck (pyLower method) fields
        = some "Database.query@fields must be a dict for insert. \x27all\x27 is not accepted." := by
      unfold fieldsCheck
      rw [if_neg hcd, if_pos h2]
      cases fields with
      | pdict d => exact absurd rfl (h3 d)
      | pnone => rfl
      | pstr s => rfl
      | pint n => rfl
      | plist l => rfl
    have hm : pyLower method ∈ validMethods := by
      rcases h2 with h2 | h2 <;> rw [h2] <;> decide
    simp [Database.query, hopen, hm, queryChecks, hd]
  · intro h2 h3
    have hcd : ¬ (pyLower method = "count" ∨ pyLower method = "delete") := by
      rcases h2 with h2 | h2 <;> rw [h2] <;> decide
    have hiu : ¬ (pyLower method = "insert" ∨ pyLower method = "update") := by
      rcases h2 with h2 | h2 <;> rw [h2] <;> decide
    have hd : fieldsCheck (pyLower method) fields
        = some "Database.query@fields must be \x27all\x27 or a list of str." := by
      unfold fieldsCheck
      rw [if_neg hcd, if_neg hiu]
      cases fields with
      | pstr s =>
        have hs : ¬ s = "all" := fun he => h3 (Or.inl (by rw [he]))
        simp [hs]
      | plist l =>
        have hb : l.all PyItem.isStr = false := by
          cases hb : l.all PyItem.isStr
          · rfl
          · exact absurd (Or.inr ⟨l, rfl, hb⟩) h3
        simp [hb]
      | pnone => rfl
      | pint n => rfl
      | pdict d => rfl
    have hm : pyLower method ∈ validMethods := by
      rcases h2 with h2 | h2 <;> rw [h2] <;> decide
    simp [Database.query, hopen, hm, queryChecks, hd]
  · intro hm hf h4 h5
    have he : extraCheck extra = some "Database.query@extra must be a str." := by
      cases extra
      · exact absurd rfl h4
      · exact absurd rfl (h5 _)
      · rfl
      · rfl
      · rfl
    simp [Database.query, hopen, hm, queryChecks, hf, he]
  · intro hm hf s hs hsem
    subst hs
    simp [Database.query, hopen, hm, queryChecks, hf, extraCheck, hsem]

/-- Claim C7 witness: the validation theorem applied to a concrete
unknown method and to a concrete extra carrying a statement
terminator. -/
theorem c7_query_validation_witness :
    Database.query pfOpenDB [] (fun _ => none) id "frobnicate" "t" (.pstr "all") .pnone
      = ⟨.error "Database.query can only select, insert, delete, count, or update.",
          pfOpenDB, [], [], []⟩ ∧
    Database.query pfOpenDB [] (fun _ => none) id "select" "t" (.pstr "all")
        (.pstr "WHERE id=1; DROP TABLE t")
      = ⟨.error "Invalid MySQL command", pfOpenDB, [], [], []⟩ := by
  have h1 := c7_query_validation_aborts_before_sql pfOpenDB [] (fun _ => none) id
    "frobnicate" "t" (.pstr "all") .pnone rfl
  have h2 := c7_query_validation_aborts_before_sql pfOpenDB [] (fun _ => none) id
    "select" "t" (.pstr "all") (.pstr "WHERE id=1; DROP TABLE t") rfl
  exact ⟨h1.1 (by decide),
    h2.2.2.2.2 (by decide) rfl "WHERE id=1; DROP TABLE t" rfl (by decide)⟩

/-- Claim C8: Database.query escapes exactly the values of the fields
mapping for insert and update — each value v is interpolated as esc v
inside single quotes, for every escape function esc, while the field
names are raw — and the extra text (the where/limit/orderby/groupby
string every builder method passes) is interpolated verbatim: it appears
unchanged in the statement and the escape function does not occur in the
statement at all for the select family. -/
theorem c8_query_escapes_exactly_the_values (esc : String → String) (db : PyDB)
    (srv : Schema) (backend : String → Option (List Row)) (tbl k v f w : String)
    (kvs : List (String × String)) (hopen : db.db_open = true) (hw1 : w ≠ "")
    (hw2 : strHasChar w ';' = false) :
    ((Database.query db srv backend esc "insert" tbl (.pdict ((k, v) :: kvs)) .pnone).sent
      = ["INSERT INTO " ++ tbl ++ "(" ++ commaSep (((k, v) :: kvs).map fun p => p.1)
          ++ ") VALUES(" ++ commaSep (((k, v) :: kvs).map fun p => "\x27" ++ esc p.2 ++ "\x27")
          ++ ");"]) ∧
    ((Database.query db srv backend esc "update" tbl (.pdict ((k, v) :: kvs)) (.pstr w)).sent
      = ["UPDATE " ++ tbl ++ " SET "
          ++ commaSep (((k, v) :: kvs).map fun p => p.1 ++ "=\x27" ++ esc p.2 ++ "\x27")
          ++ " " ++ w ++ ";"]) ∧
    ((Database.query db srv backend esc "select" tbl (.plist [.istr f]) (.pstr w)).sent
      = ["SELECT " ++ f ++ " FROM " ++ tbl ++ " " ++ w ++ ";"]) := by
  refine ⟨?_, ?_, ?_⟩
  · have h1 : ∀ pre, pyChop (((k, v) :: kvs).foldl (fun acc p => acc ++ p.1 ++ ",") pre)
        = pre ++ commaSep (((k, v) :: kvs).map fun p => p.1) :=
      fun pre => chopFold (fun p => p.1) kvs (k, v) pre
    have h2 : ∀ pre,
        pyChop (((k, v) :: kvs).foldl
          (fun acc p => acc ++ ("\x27" ++ esc p.2 ++ "\x27") ++ ",") pre)
        = pre ++ commaSep (((k, v) :: kvs).map fun p => "\x27" ++ esc p.2 ++ "\x27") :=
      fun pre => chopFoldVal esc kvs (k, v) pre
    simp +decide [Database.query, Database.sql_query, buildQuerySql, queryChecks,
      fieldsCheck, extraCheck, hopen, h1, h2,
      -List.foldl_cons, -List.map_cons,
      show pyLower "insert" = "insert" from rfl,
      show pyUpper "insert" = "INSERT" from rfl]
    simp [str_append_assoc]
  · have h3 : ∀ pre,
        pyChop (((k, v) :: kvs).foldl
          (fun acc p => acc ++ (p.1 ++ "=\x27" ++ esc p.2 ++ "\x27") ++ ",") pre)
        = pre ++ commaSep (((k, v) :: kvs).map fun p => p.1 ++ "=\x27" ++ esc p.2 ++ "\x27") :=
      fun pre => chopFoldSet esc kvs (k, v) pre
    simp +decide [Database.query, Database.sql_query, buildQuerySql, queryChecks,
      fieldsCheck, extraCheck, hopen, h3, hw1, hw2,
      -List.foldl_cons, -List.map_cons,
      show pyLower "update" = "update" from rfl,
      show pyUpper "update" = "UPDATE" from rfl]
  · simp +decide [Database.query, Database.sql_query, buildQuerySql, queryChecks,
      fieldsCheck, extraCheck, hopen, hw1, hw2, PyItem.isStr, PyItem.asStr,
      show pyLower "select" = "select" from rfl,
      show pyUpper "select" = "SELECT" from rfl]
    rw [pyChop_append_comma ("SELECT " ++ f)]

/-- Claim C8 witness: the escaping theorem applied at a concrete escape
function, a one-entry update mapping and a concrete where clause. -/
theorem c8_query_escapes_witness :
    (Database.query pfOpenDB [] (fun _ => none) (fun s => "E" ++ s) "update" "t"
        (.pdict [("name", "O")]) (.pstr "WHERE id=1")).sent
      = ["UPDATE t SET name=\x27EO\x27 WHERE id=1;"] := by
  have h := c8_query_escapes_exactly_the_values (fun s => "E" ++ s) pfOpenDB []
    (fun _ => none) "t" "name" "O" "f" "WHERE id=1" [] rfl (by decide) (by decide)
  exact h.2.1.trans (by decide)

/-- Claim C10: the registry is None, not the empty list, in the empty and
disconnected states — a fresh Database has tables = None; connect on a
server with zero tables opens the connection, succeeds, and leaves tables
untouched (so still None after init), while table_names is the empty
list; and close on any open database resets tables to None. -/
theorem c10_registry_none_not_empty_list (loc u p dbn : String) (db : PyDB) (srv : Schema) :
    (Database.init_ loc u p dbn).tables = none ∧
    (db.db_open = false →
      (Database.connect db []).db.db_open = true ∧
      (Database.connect db []).db.tables = db.tables ∧
      (Database.connect db []).ret = .ok ()) ∧
    (Database.connect (Database.init_ loc u p dbn) []).db.tables = none ∧
    table_names (Database.connect (Database.init_ loc u p dbn) []).db = [] ∧
    (db.db_open = true → (Database.close db srv).db.tables = none) := by
  refine ⟨rfl, ?_, rfl, rfl, ?_⟩
  · intro h
    simp [Database.connect, h, collapseResult, showTablesRows, exceptMapM]
  · intro h
    simp only [Database.close, h, if_true]
    split <;> try split
    all_goals simp

/-- Claim C10 witness: the registry theorem applied at a concrete open
database being closed and a concrete closed database being connected. -/
theorem c10_registry_witness :
    (Database.close pfOpenDB []).db.tables = none ∧
    (Database.connect pfClosedDB []).db.tables = pfClosedDB.tables := by
  have h1 := c10_registry_none_not_empty_list "h" "u" "p" "d" pfOpenDB []
  have h2 := c10_registry_none_not_empty_list "h" "u" "p" "d" pfClosedDB []
  exact ⟨h1.2.2.2.2 rfl, (h2.2.1 rfl).2.1⟩

end RandomPy
